import Mathlib

/-!
Verification of the workflow-orchestration subsystem of the
multi_agent_systems_architecture_engineering repository.

The embedding below follows the Python source:
- `check_cool_down` from `src/architect/agent/agent_1/agent.py` (the
  AdmissionGate interceptor);
- `call_tool` from `src/architect/ mcp-servers/general /main.py` and
  `src/architect/ mcp-servers/api/main.py` (the ToolInvoker handlers,
  which are textually identical in the two servers);
- `save_last_action_callback` from `src/architect/agent/agent3/agent.py`.

Time is modelled as integer seconds (`Int`); `COOLDOWN_PERIOD_SECONDS`
is an arbitrary period `P`. The composite drivers (`SequentialAgent`,
`LoopAgent`, `ParallelAgent`) live in the external `google.adk` library,
not in this repository; where a claim needs their semantics they are
modelled from the spec, and this is stated in the doc comment of the
corresponding definition.
-/

/-- Decision of the admission gate. `allow` is the Python `return None`
("let the agent run"); `deny s` is `return types.Content(...)` carrying the
override message with `seconds_remaining = s`. -/
inductive Decision where
  | allow
  | deny (seconds_remaining : Int)
deriving DecidableEq, Repr

/-- What the `"time"` field of the cooldown store's JSON answer amounts to
once Python has acted on it. `data.get("time")` yields `None` when the key is
absent (`absent`); an empty string is falsy in Python, so `if last_used_str:`
treats it like an absent record (`emptyStr`); a well-formed, timezone-aware
ISO-8601 string parses to a timestamp (`aware t`, with `t` the epoch
seconds); a well-formed but timezone-naive string parses, but subtracting it
from the timezone-aware `datetime.now(timezone.utc)` raises `TypeError`
(`naive t`); a malformed string makes `datetime.fromisoformat` raise
`ValueError` (`malformed`). -/
inductive TimeField where
  | absent
  | emptyStr
  | aware (t : Int)
  | naive (t : Int)
  | malformed
deriving DecidableEq, Repr

/-- Outcome of the `requests.get(f"{COOLDOWN_API_URL}/cooldown/{agent_name}")`
call, after `response.raise_for_status()`: either some
`requests.exceptions.RequestException` was raised (store unreachable,
timeout, or HTTP error status), or a JSON body was obtained whose `"time"`
field is described by a `TimeField`. -/
inductive StoreGetResult where
  | requestError
  | success (time : TimeField)
deriving DecidableEq, Repr

/-- Python exceptions that `check_cool_down` can let escape. -/
inductive PyError where
  | valueError
  | typeError
deriving DecidableEq, Repr

/-- What one `check_cool_down` run did: its decision, whether the
`requests.post` updating the timestamp was attempted at all, and whether the
store actually applied that write (`store_updated = false` when the POST was
skipped or when it failed). -/
structure GateOutcome where
  decision : Decision
  write_attempted : Bool
  store_updated : Bool
deriving DecidableEq, Repr

/-- The `check_cool_down` callback from `src/architect/agent/agent_1/agent.py`
(lines 72-146), over integer-second time. `P` is `COOLDOWN_PERIOD_SECONDS`,
`now` is `datetime.now(timezone.utc)`, `get_result` the outcome of the GET to
the cooldown store, and `post_ok` whether the store applies the timestamp
write when one is sent (the surrounding `try/except` only logs a POST
failure). Step 1 (`try: requests.get ... except: return None`) is the
`requestError` arm; step 2 (`if last_used_str: ...`) is the match on the
time field, where `datetime.fromisoformat` raises `ValueError` on a
malformed string and the subtraction `datetime.now(timezone.utc) -
last_used_time` raises `TypeError` on a naive one — neither exception is
caught anywhere in the function; step 3 is the POST, reached only on the
allow paths. -/
def check_cool_down (P now : Int) (get_result : StoreGetResult)
    (post_ok : Bool) : Except PyError GateOutcome :=
  match get_result with
  | .requestError => .ok ⟨.allow, false, false⟩
  | .success tf =>
    match tf with
    | .absent => .ok ⟨.allow, true, post_ok⟩
    | .emptyStr => .ok ⟨.allow, true, post_ok⟩
    | .malformed => .error .valueError
    | .naive _ => .error .typeError
    | .aware last_used =>
      if now - last_used < P then
        .ok ⟨.deny (P - (now - last_used)), false, false⟩
      else
        .ok ⟨.allow, true, post_ok⟩

/-- The denial message built at lines 123-126 of
`src/architect/agent/agent_1/agent.py` (the f-string
`override_message`). -/
def override_message (agent_name : String) (seconds_remaining : Int) : String :=
  "The " ++ agent_name ++ " is on cooldown and cannot be used right now. " ++
  "Please wait " ++ toString seconds_remaining ++ " seconds before trying again."

/-- State of the external cooldown store, keyed by node name, as the sole
`CooldownRecord` per name (`last_used_timestamp` in epoch seconds). -/
def CooldownStore := String → Option Int

/-- Effect of one `check_cool_down` run on the cooldown store: the POST at
line 139 writes `CooldownRecord(agent_name, now)` exactly when it was
attempted and the store applied it; otherwise the store is unchanged. -/
def store_after (store : CooldownStore) (agent_name : String) (now : Int)
    (o : GateOutcome) : CooldownStore :=
  if o.store_updated then
    fun n => if n = agent_name then some now else store n
  else
    store

/-- C1: with the store reachable, `check_cool_down` allows when there is no
record, allows when the elapsed time since `last_used` is at least the
period `P`, and otherwise denies with `seconds_remaining = P - elapsed`;
between two denied probes the remaining time strictly decreases as the
elapsed time grows. -/
theorem admission_gate_decision (P last_used now now' : Int) (post_ok : Bool) :
    (check_cool_down P now (.success .absent) post_ok = .ok ⟨.allow, true, post_ok⟩) ∧
    (P ≤ now - last_used →
      check_cool_down P now (.success (.aware last_used)) post_ok =
        .ok ⟨.allow, true, post_ok⟩) ∧
    (now - last_used < P →
      check_cool_down P now (.success (.aware last_used)) post_ok =
        .ok ⟨.deny (P - (now - last_used)), false, false⟩) ∧
    (∀ r r' s s',
      check_cool_down P now (.success (.aware last_used)) post_ok = .ok r →
      check_cool_down P now' (.success (.aware last_used)) post_ok = .ok r' →
      now < now' →
      r.decision = .deny s → r'.decision = .deny s' → s' < s) := by
  refine ⟨rfl, ?_, ?_, ?_⟩
  · intro h
    simp [check_cool_down, if_neg (by omega : ¬ now - last_used < P)]
  · intro h
    simp [check_cool_down, if_pos h]
  · intro r r' s s' hr hr' hlt hd hd'
    simp only [check_cool_down] at hr hr'
    by_cases h1 : now - last_used < P
    · by_cases h2 : now' - last_used < P
      · rw [if_pos h1] at hr
        rw [if_pos h2] at hr'
        cases hr; cases hr'
        simp only [Decision.deny.injEq] at hd hd'
        omega
      · rw [if_neg h2] at hr'
        cases hr'
        simp at hd'
    · rw [if_neg h1] at hr
      cases hr
      simp at hd

/-- C1 witness: with `P = 60`, a record 10 seconds old is denied with 50
seconds remaining, and a probe 20 seconds later would be denied with
strictly fewer seconds remaining. -/
theorem admission_gate_decision_witness :
    ((10 : Int) - 0 < 60 ∧
      check_cool_down 60 10 (.success (.aware 0)) true =
        .ok ⟨.deny 50, false, false⟩) ∧
    (∀ r r' s s',
      check_cool_down 60 10 (.success (.aware 0)) true = .ok r →
      check_cool_down 60 30 (.success (.aware 0)) true = .ok r' →
      (10 : Int) < 30 →
      r.decision = .deny s → r'.decision = .deny s' → s' < s) := by
  have h := admission_gate_decision 60 0 10 30 true
  refine ⟨⟨by decide, ?_⟩, ?_⟩
  · have := h.2.2.1 (by decide)
    simpa using this
  · intro r r' s s' hr hr' hlt hd hd'
    exact h.2.2.2 r r' s s' hr hr' hlt hd hd'

/-- C2: when the GET to the cooldown store raises a request exception, the
check fails open: it returns `Allow` (Python `return None`), for any period,
any current time and any write behaviour, and never surfaces an error. -/
theorem admission_gate_fail_open (P now : Int) (post_ok : Bool) :
    check_cool_down P now .requestError post_ok = .ok ⟨.allow, false, false⟩ :=
  rfl

/-- C4: the claim says every possible `"time"` value from the store resolves
to a decision; on the code, a malformed timestamp makes
`datetime.fromisoformat` raise `ValueError` and a timezone-naive one makes
the subtraction raise `TypeError`, and neither is caught inside
`check_cool_down`, so the exception propagates out of the run. -/
theorem admission_gate_unhandled_parse_fault (P now t : Int) (post_ok : Bool) :
    check_cool_down P now (.success .malformed) post_ok = .error .valueError ∧
    check_cool_down P now (.success (.naive t)) post_ok = .error .typeError :=
  ⟨rfl, rfl⟩

/-- C5: with the store reachable, whenever `check_cool_down` decides `Allow`
the timestamp POST is attempted, the record written is `now` when the store
accepts it, and a failing POST never turns the granted `Allow` into a
`Deny`: the decision is the same for every write behaviour. -/
theorem admission_gate_allow_writes (P now : Int) (tf : TimeField)
    (post_ok : Bool) (o : GateOutcome)
    (h : check_cool_down P now (.success tf) post_ok = .ok o)
    (ha : o.decision = .allow) :
    o.write_attempted = true ∧
    o.store_updated = post_ok ∧
    (∀ store : CooldownStore, ∀ name : String, post_ok = true →
      store_after store name now o name = some now) ∧
    (∀ post_ok' : Bool,
      check_cool_down P now (.success tf) post_ok' = .ok ⟨.allow, true, post_ok'⟩) := by
  cases tf with
  | malformed => cases h
  | naive t => cases h
  | absent =>
    cases h
    exact ⟨rfl, rfl, fun store name hp => by simp [store_after, hp], fun _ => rfl⟩
  | emptyStr =>
    cases h
    exact ⟨rfl, rfl, fun store name hp => by simp [store_after, hp], fun _ => rfl⟩
  | aware last_used =>
    simp only [check_cool_down] at h
    by_cases hc : now - last_used < P
    · rw [if_pos hc] at h
      cases h
      simp at ha
    · rw [if_neg hc] at h
      cases h
      refine ⟨rfl, rfl, fun store name hp => by simp [store_after, hp], fun pk' => ?_⟩
      simp [check_cool_down, if_neg hc]

/-- C5 witness: with `P = 60`, a record 100 seconds old is allowed, the
timestamp write is attempted and (the store accepting it) records the
current time 100. -/
theorem admission_gate_allow_writes_witness :
    check_cool_down 60 100 (.success (.aware 0)) true = .ok ⟨.allow, true, true⟩ ∧
    GateOutcome.decision ⟨.allow, true, true⟩ = .allow ∧
    GateOutcome.write_attempted ⟨.allow, true, true⟩ = true ∧
    store_after (fun _ => some 0) "first_agent" 100 ⟨.allow, true, true⟩ "first_agent"
      = some 100 := by
  have h := admission_gate_allow_writes 60 100 (.aware 0) true ⟨.allow, true, true⟩
    rfl rfl
  exact ⟨rfl, rfl, h.1, h.2.2.1 (fun _ => some 0) "first_agent" rfl⟩

/-- C9: when the GET to the store fails, the check returns `Allow` without
ever attempting the timestamp POST, and the cooldown record of every node
name is left unchanged. -/
theorem admission_gate_fail_open_frame (P now : Int) (post_ok : Bool)
    (store : CooldownStore) (name : String) :
    check_cool_down P now .requestError post_ok = .ok ⟨.allow, false, false⟩ ∧
    GateOutcome.write_attempted ⟨.allow, false, false⟩ = false ∧
    store_after store name now ⟨.allow, false, false⟩ = store :=
  ⟨rfl, rfl, rfl⟩

/-- A child node of a composite, as the Sequential/Loop driver sees it: its
`name` (the AdmissionGate key, `callback_context.agent_name`) and the output
it produces when it actually runs. -/
structure SeqChild where
  name : String
  output : String

/-- Modelled from the spec: the `SequentialAgent`/`LoopAgent` driver that
runs the children of a composite in declared order is part of the external
`google.adk` library, not of this repository; `src/architect/agent/agent_1/agent.py`
only installs `check_cool_down` as its `before_agent_callback` (lines
251-271). Per the spec (section 4.4), for each child in order the driver calls
the gate; if the gate denies, the denial message becomes that child's output
and execution proceeds to the next child; if it allows, the child runs and
yields its own output. `env` gives the store's answer for each child name;
an uncaught gate exception aborts the whole traversal. The result pairs each
child's name with the output it contributed. -/
def run_children (P now : Int) (env : String → StoreGetResult)
    (post_ok : Bool) : List SeqChild → Except PyError (List (String × String))
  | [] => .ok []
  | c :: rest =>
    match check_cool_down P now (env c.name) post_ok with
    | .error e => .error e
    | .ok o =>
      let out := match o.decision with
        | .allow => c.output
        | .deny s => override_message c.name s
      match run_children P now env post_ok rest with
      | .error e => .error e
      | .ok outs => .ok ((c.name, out) :: outs)

/-- Modelled from the spec: `LoopAgent` repeats its child sequence
`max_iterations` times, re-evaluating the gate on every iteration; each
iteration contributes its own list of child outputs. -/
def run_loop (P now : Int) (env : String → StoreGetResult) (post_ok : Bool)
    (children : List SeqChild) :
    Nat → Except PyError (List (List (String × String)))
  | 0 => .ok []
  | n + 1 =>
    match run_children P now env post_ok children with
    | .error e => .error e
    | .ok outs =>
      match run_loop P now env post_ok children n with
      | .error e => .error e
      | .ok rest => .ok (outs :: rest)

/-- C6: a cooldown denial is non-fatal to the run: in a two-child sequence
where the first child is on cooldown (its record is `elapsed < P` old) and
the second has no record, the run still succeeds, the denied child's output
is the denial message carrying the remaining wait `P - elapsed`, and
execution proceeds to the next child, which contributes its normal output;
one loop iteration behaves the same way. -/
theorem sequential_denial_non_fatal (P now last_used : Int)
    (a b : SeqChild) (env : String → StoreGetResult) (post_ok : Bool)
    (ha : env a.name = .success (.aware last_used))
    (hb : env b.name = .success .absent)
    (hcool : now - last_used < P) :
    run_children P now env post_ok [a, b] =
      .ok [(a.name, override_message a.name (P - (now - last_used))),
           (b.name, b.output)] ∧
    run_loop P now env post_ok [a, b] 1 =
      .ok [[(a.name, override_message a.name (P - (now - last_used))),
            (b.name, b.output)]] := by
  have hseq : run_children P now env post_ok [a, b] =
      .ok [(a.name, override_message a.name (P - (now - last_used))),
           (b.name, b.output)] := by
    simp only [run_children, ha, hb, check_cool_down, if_pos hcool]
  exact ⟨hseq, by simp only [run_loop, hseq]⟩

/-- C6 witness: with `P = 60`, child `first_agent` used 10 seconds ago and
child `second_agent` with no record, the sequence yields the denial message
for the first child and the normal output for the second. -/
theorem sequential_denial_non_fatal_witness :
    ((10 : Int) - 0 < 60) ∧
    run_children 60 10
      (fun n => if n = "first_agent" then .success (.aware 0) else .success .absent)
      true
      [⟨"first_agent", "out1"⟩, ⟨"second_agent", "out2"⟩] =
      .ok [("first_agent", override_message "first_agent" 50),
           ("second_agent", "out2")] := by
  have h := sequential_denial_non_fatal 60 10 0
    ⟨"first_agent", "out1"⟩ ⟨"second_agent", "out2"⟩
    (fun n => if n = "first_agent" then .success (.aware 0) else .success .absent)
    true (by simp) (by simp) (by decide)
  exact ⟨by decide, by simpa using h.1⟩

/-- The mutable ExecutionContext: a mapping from string keys to values. -/
def ExecutionContext := String → Option String

/-- Writing one key of the ExecutionContext (last writer wins). -/
def ctx_set (ctx : ExecutionContext) (key value : String) : ExecutionContext :=
  fun k => if k = key then some value else ctx k

/-- A child of a `ParallelAgent`: its name, the context key it declares for
its output, and its behaviour as a function of the context it is given to
read. -/
structure ParChild where
  name : String
  output_key : String
  compute : ExecutionContext → String

/-- Modelled from the spec: the `ParallelAgent` driver is part of the
external `google.adk` library; `src/architect/agent/agent4/agent.py` only
assembles `parallel_group` (lines 168-182) and places it inside the
sequential `root_agent` (lines 236-249). Per the spec (sections 4.4 and 5),
every child of a parallel phase runs against the same immutable context
snapshot taken at phase start, each child's write is buffered, and the
buffered writes are merged into the live context only after the join. -/
def run_parallel (snapshot : ExecutionContext) (children : List ParChild) :
    ExecutionContext :=
  let buffered := children.map (fun c => (c.output_key, c.compute snapshot))
  buffered.foldl (fun ctx kv => ctx_set ctx kv.1 kv.2) snapshot

/-- C7: in a parallel phase with children `A` and `B` writing distinct keys,
`A` computes from the phase-start snapshot — so `B`'s write is never visible
to `A` no matter how the two executions overlap in time (changing what `B`
computes, hence what and when it writes, leaves `A`'s contribution
unchanged) — and after the join the merged context holds both children's
writes, none lost. -/
theorem parallel_isolation_no_lost_updates (snapshot : ExecutionContext)
    (a b : ParChild) (hk : a.output_key ≠ b.output_key) :
    run_parallel snapshot [a, b] a.output_key = some (a.compute snapshot) ∧
    run_parallel snapshot [a, b] b.output_key = some (b.compute snapshot) ∧
    (∀ g : ExecutionContext → String,
      run_parallel snapshot [a, ⟨b.name, b.output_key, g⟩] a.output_key =
        run_parallel snapshot [a, b] a.output_key) := by
  refine ⟨?_, ?_, fun g => ?_⟩
  · simp [run_parallel, ctx_set, hk]
  · simp [run_parallel, ctx_set]
  · simp [run_parallel, ctx_set, hk]

/-- C7 witness: two collectors writing distinct keys `k1`, `k2` against an
empty snapshot: each computes from the snapshot and both writes survive the
merge. -/
theorem parallel_isolation_no_lost_updates_witness :
    (("k1" : String) ≠ "k2") ∧
    (run_parallel (fun _ => none)
        [⟨"data_collector_1", "k1", fun _ => "va"⟩,
         ⟨"data_collector_2", "k2", fun _ => "vb"⟩] "k1" = some "va" ∧
      run_parallel (fun _ => none)
        [⟨"data_collector_1", "k1", fun _ => "va"⟩,
         ⟨"data_collector_2", "k2", fun _ => "vb"⟩] "k2" = some "vb") := by
  have h := parallel_isolation_no_lost_updates (fun _ => none)
    ⟨"data_collector_1", "k1", fun _ => "va"⟩
    ⟨"data_collector_2", "k2", fun _ => "vb"⟩ (by decide)
  exact ⟨by decide, h.1, h.2.1⟩

/-- Arguments of a tool call, as the MCP handler receives them
(`arguments: dict`). -/
def ToolArgs := List (String × String)

/-- Behaviour of one registered tool on given arguments: `run_async`
followed by `json.dumps(adk_response, indent=2)` either completes with a
response text, or some step inside the `try` block raises an exception whose
`str(e)` is `message`. -/
inductive ToolOutcome where
  | success (response_text : String)
  | raised (message : String)

/-- One item of the handler's returned list:
`mcp_types.TextContent(type="text", text=...)`. -/
structure TextContent where
  kind : String
  text : String

/-- The `available_tools` registry: tool name to tool behaviour, as the dict
built in the tool-registration section of both MCP servers. -/
def ToolRegistry := List (String × (ToolArgs → ToolOutcome))

/-- Dictionary lookup `available_tools.get(name)`. -/
def lookup_tool : ToolRegistry → String → Option (ToolArgs → ToolOutcome)
  | [], _ => none
  | (n, t) :: rest, name => if n = name then some t else lookup_tool rest name

/-- The error body `json.dumps(\x7b"error": msg\x7d)` built by the handler
(string furniture of a one-key JSON object). -/
def json_error (msg : String) : String :=
  "\x7b\"error\": \"" ++ msg ++ "\"\x7d"

/-- The unknown-tool message, the f-string
`f"Tool '\x7bname\x7d' not implemented."` of the `else` branch. -/
def not_implemented_text (name : String) : String :=
  "Tool \x27" ++ name ++ "\x27 not implemented."

/-- The execution-failure message, the f-string
`f"Failed to execute tool '\x7bname\x7d': \x7bstr(e)\x7d"` of the `except`
branch. -/
def exec_failed_text (name message : String) : String :=
  "Failed to execute tool \x27" ++ name ++ "\x27: " ++ message

/-- The `call_tool` MCP handler, identical (up to comments) in
`src/architect/ mcp-servers/general /main.py` (lines 209-243) and
`src/architect/ mcp-servers/api/main.py` (lines 154-187): look the name up
in `available_tools`; if found, run it inside a `try` that converts any
exception into a JSON error text; if not found, return the
not-implemented JSON error text. Every branch returns a one-element list of
text content; nothing is raised to the caller. -/
def call_tool (available_tools : ToolRegistry) (name : String)
    (arguments : ToolArgs) : List TextContent :=
  match lookup_tool available_tools name with
  | some tool_to_call =>
    match tool_to_call arguments with
    | .success response_text => [⟨"text", response_text⟩]
    | .raised e => [⟨"text", json_error (exec_failed_text name e)⟩]
  | none => [⟨"text", json_error (not_implemented_text name)⟩]

/-- C3: for a tool name absent from the registry and any arguments,
`call_tool` returns (never raises) a structured failure whose error text
contains the requested name and says it is not implemented. -/
theorem call_tool_unknown_structured_failure (available_tools : ToolRegistry)
    (name : String) (arguments : ToolArgs)
    (h : lookup_tool available_tools name = none) :
    call_tool available_tools name arguments =
      [⟨"text", json_error (not_implemented_text name)⟩] ∧
    (∃ p q, json_error (not_implemented_text name) = p ++ name ++ q) ∧
    (∃ p q, json_error (not_implemented_text name) =
      p ++ "not implemented." ++ q) := by
  refine ⟨by simp [call_tool, h], ?_, ?_⟩
  · refine ⟨"\x7b\"error\": \"" ++ "Tool \x27", "\x27 not implemented." ++ "\"\x7d", ?_⟩
    simp only [json_error, not_implemented_text, String.append_assoc]
  · refine ⟨"\x7b\"error\": \"" ++ ("Tool \x27" ++ name ++ "\x27 "), "\"\x7d", ?_⟩
    have hsplit : "\x27 not implemented." = "\x27 " ++ "not implemented." := rfl
    simp only [json_error, not_implemented_text, hsplit, String.append_assoc]

/-- C3 witness: calling `frobnicate` against an empty registry yields the
non-raising structured not-implemented failure. -/
theorem call_tool_unknown_structured_failure_witness :
    lookup_tool [] "frobnicate" = none ∧
    (call_tool [] "frobnicate" [] =
        [⟨"text", json_error (not_implemented_text "frobnicate")⟩] ∧
      (∃ p q, json_error (not_implemented_text "frobnicate") =
        p ++ "frobnicate" ++ q) ∧
      (∃ p q, json_error (not_implemented_text "frobnicate") =
        p ++ "not implemented." ++ q)) :=
  ⟨rfl, call_tool_unknown_structured_failure [] "frobnicate" [] rfl⟩

/-- C8: for a registered tool whose execution raises, `call_tool` returns
(instead of propagating the exception) a structured failure whose error text
carries the exception message and names the tool. -/
theorem call_tool_exec_error_recovered (available_tools : ToolRegistry)
    (name : String) (arguments : ToolArgs)
    (impl : ToolArgs → ToolOutcome) (msg : String)
    (hfound : lookup_tool available_tools name = some impl)
    (hraises : impl arguments = .raised msg) :
    call_tool available_tools name arguments =
      [⟨"text", json_error (exec_failed_text name msg)⟩] ∧
    (∃ p q, json_error (exec_failed_text name msg) = p ++ msg ++ q) ∧
    (∃ p q, json_error (exec_failed_text name msg) = p ++ name ++ q) := by
  refine ⟨by simp [call_tool, hfound, hraises], ?_, ?_⟩
  · refine ⟨"\x7b\"error\": \"" ++ ("Failed to execute tool \x27" ++ name ++ "\x27: "),
      "\"\x7d", ?_⟩
    simp only [json_error, exec_failed_text, String.append_assoc]
  · refine ⟨"\x7b\"error\": \"" ++ "Failed to execute tool \x27",
      "\x27: " ++ msg ++ "\"\x7d", ?_⟩
    simp only [json_error, exec_failed_text, String.append_assoc]

/-- C8 witness: a registry holding one tool that raises `boom` on every
call: `call_tool` returns the structured execution-failure text. -/
theorem call_tool_exec_error_recovered_witness :
    lookup_tool [("your_calculation_function", fun _ => .raised "boom")]
        "your_calculation_function" = some (fun _ => .raised "boom") ∧
    call_tool [("your_calculation_function", fun _ => .raised "boom")]
        "your_calculation_function" [] =
      [⟨"text", json_error (exec_failed_text "your_calculation_function" "boom")⟩] :=
  ⟨rfl,
    (call_tool_exec_error_recovered
      [("your_calculation_function", fun _ => .raised "boom")]
      "your_calculation_function" [] (fun _ => .raised "boom") "boom"
      rfl rfl).1⟩

/-- The `tool_context.state` mapping carried by the ADK `ToolContext`:
context keys to saved string values (the callback only ever stores agent
names). -/
def CallbackState := String → Option String

/-- The `ToolContext` as `save_last_action_callback` uses it: only its
`state` member is touched. -/
structure ToolContext where
  state : CallbackState

/-- The `save_last_action_callback` from `src/architect/agent/agent3/agent.py`
(lines 105-146), installed as the `after_tool_callback` of the
`master_orchestrator` agent. It reads `tool.name`, sets
`tool_context.state["last_action"]` to it, and returns `tool_response`
unchanged; the response type is kept abstract because the function never
inspects it. The returned pair is the response together with the
`ToolContext` after the in-place state mutation. -/
def save_last_action_callback {ρ : Type} (tool_name : String)
    (args : ToolArgs) (tool_context : ToolContext) (tool_response : ρ) :
    ρ × ToolContext :=
  let _ := args
  (tool_response,
    ⟨fun k => if k = "last_action" then some tool_name else tool_context.state k⟩)

/-- C10: the after-tool callback records the executed agent's name under the
fixed key `last_action`, returns the tool response unchanged (the identical
value, so no field is modified), and writes no other state key. -/
theorem after_tool_callback_frame {ρ : Type} (tool_name : String)
    (args : ToolArgs) (tool_context : ToolContext) (tool_response : ρ) :
    (save_last_action_callback tool_name args tool_context tool_response).1 =
      tool_response ∧
    (save_last_action_callback tool_name args tool_context
        tool_response).2.state "last_action" = some tool_name ∧
    (∀ k, k ≠ "last_action" →
      (save_last_action_callback tool_name args tool_context
          tool_response).2.state k = tool_context.state k) := by
  refine ⟨rfl, rfl, fun k hk => ?_⟩
  simp [save_last_action_callback, hk]

/-- C10 witness: after the callback runs for `first_service_agent` over an
empty state, `last_action` holds that name, an unrelated key such as
`final_result` is still unset, and the response value `done` comes back
unchanged. -/
theorem after_tool_callback_frame_witness :
    (save_last_action_callback "first_service_agent" [] ⟨fun _ => none⟩
        "done").1 = "done" ∧
    (save_last_action_callback "first_service_agent" [] ⟨fun _ => none⟩
        "done").2.state "last_action" = some "first_service_agent" ∧
    ("final_result" ≠ "last_action" ∧
      (save_last_action_callback "first_service_agent" [] ⟨fun _ => none⟩
          "done").2.state "final_result" = none) := by
  have h := after_tool_callback_frame "first_service_agent" []
    ⟨fun _ => none⟩ "done"
  exact ⟨h.1, h.2.1, by decide, h.2.2 "final_result" (by decide)⟩
